import Mathlib

/-!
Shallow embedding of the paginated fetch-and-checkpoint engine of
`x_likes_exporter` (files `client.py`, `checkpoint.py`, `exporter.py`),
together with theorems settling the specification claims about it.

File I/O becomes explicit state passing (`CheckpointStore`), the wall
clock becomes an explicit parameter, and the side effects of the fetch
loop (requests issued, checkpoint saves, sleeps) are recorded in an
event trace.
-/

/-- Author model (`models.py`, class `User`). -/
structure User where
  id : String
  screen_name : String
  name : String
  profile_image_url : Option String := none
  verified : Bool := false
  followers_count : Nat := 0
  following_count : Nat := 0
deriving Repr, DecidableEq

/-- Media model (`models.py`, class `Media`). -/
structure Media where
  type : String
  url : String
  media_url : Option String := none
  preview_image_url : Option String := none
  width : Option Nat := none
  height : Option Nat := none
  local_path : Option String := none
deriving Repr, DecidableEq

/-- Record model (`models.py`, class `Tweet`).  The recursive
`quoted_tweet` / `retweeted_tweet` sub-records and the free-form
`raw_data` payload are omitted: no claim inspects them, and no code
settled here reads them. -/
structure Tweet where
  id : String
  text : String
  created_at : String
  user : User
  retweet_count : Nat := 0
  favorite_count : Nat := 0
  reply_count : Nat := 0
  quote_count : Nat := 0
  view_count : Nat := 0
  lang : String := "en"
  is_retweet : Bool := false
  is_quote : Bool := false
  media : List Media := []
  urls : List String := []
  hashtags : List String := []
  mentions : List String := []
  conversation_id : Option String := none
  in_reply_to_user_id : Option String := none
deriving Repr, DecidableEq

/-- Rate limit information (`client.py` lines 15-30, class `RateLimitInfo`).
Python integers are unbounded, so the fields are `Int`. -/
structure RateLimitInfo where
  limit : Int
  remaining : Int
  reset : Int
deriving Repr, DecidableEq

/-- `RateLimitInfo.should_wait` (client.py line 22-24): `remaining <= 1`. -/
def RateLimitInfo.should_wait (r : RateLimitInfo) : Bool :=
  r.remaining ≤ 1

/-- `RateLimitInfo.get_wait_time` (client.py lines 26-30):
`max(0, reset - now + 5)`, with the current time `now` made explicit. -/
def RateLimitInfo.get_wait_time (r : RateLimitInfo) (now : Int) : Int :=
  max 0 (r.reset - now + 5)

/-- Parsing of the `x-rate-limit-*` response headers (client.py lines
163-167): each absent header defaults to `0` via
`int(response.headers.get(..., 0))`. -/
def parseRateLimitHeaders (lim rem rst : Option Int) : RateLimitInfo :=
  { limit := lim.getD 0, remaining := rem.getD 0, reset := rst.getD 0 }

/-- Python truthiness of an `Optional[str]`: `None` and the empty string
are falsy.  Used for the `if not next_cursor` test (client.py line 254). -/
def cursorFalsy : Option String → Bool
  | none => true
  | some s => s == ""

/-- One page as returned by `XAPIClient.fetch_likes` (client.py lines
49-189): the parsed tweets, the extracted bottom cursor (`None` when
absent), the rate-limit window parsed from the headers, and the wall
clock time observed when the loop handles this page's rate limit. -/
structure PageResponse where
  tweets : List Tweet
  next_cursor : Option String
  rate_limit : RateLimitInfo
  now : Int
deriving Repr, DecidableEq

/-- Observable side effects of `XAPIClient.fetch_all_likes`:
a fetch request issued with a given cursor, an invocation of the
checkpoint callback with the accumulated tweets and a cursor, the
rate-limit sleep (client.py line 268), and the fixed polite delay
between requests (client.py line 271). -/
inductive Event where
  | fetchCall : Option String → Event
  | checkpointSave : List Tweet → Option String → Event
  | rateLimitSleep : Int → Event
  | politeSleep : Event
deriving Repr, DecidableEq

/-- Result of a `fetch_all_likes` run: the returned tweets, the event
trace, whether the loop ended via the stop callback, and whether the
page supply was exhausted before the loop ended (in the source this is
a raised exception from `fetch_likes`). -/
structure FetchResult where
  tweets : List Tweet
  trace : List Event
  stopped : Bool
  errored : Bool
deriving Repr, DecidableEq

/-- The periodic checkpoint of client.py lines 249-251: fires when
`page_count % checkpoint_interval == 0`, saving the accumulated tweets
with the freshly extracted `next_cursor`. -/
def periodicSaveEvents (page_count ci : Nat) (acc : List Tweet)
    (next_cursor : Option String) : List Event :=
  if page_count % ci == 0 then [Event.checkpointSave acc next_cursor] else []

/-- The rate-limit handling of client.py lines 260-268: when
`should_wait()` and the computed wait is positive, save a checkpoint of
the accumulated tweets and the (already advanced) cursor, then sleep. -/
def rateLimitEvents (rl : RateLimitInfo) (now : Int) (acc : List Tweet)
    (cursor : Option String) : List Event :=
  if rl.should_wait then
    if rl.get_wait_time now > 0 then
      [Event.checkpointSave acc cursor, Event.rateLimitSleep (rl.get_wait_time now)]
    else []
  else []

/-- `XAPIClient.fetch_all_likes` (client.py lines 191-274).  The stop
callback is modelled as a function of the number of pages fetched so
far (it is consulted exactly once per iteration, at the top of the
loop); the page responses the API would return are given as a list
consumed in order; the checkpoint callback is modelled by recording
`Event.checkpointSave` in the trace. -/
def fetch_all_likes (stop : Nat → Bool) (pages : List PageResponse)
    (all_tweets : List Tweet) (cursor : Option String)
    (page_count ci : Nat) : FetchResult :=
  if stop page_count then
    { tweets := all_tweets
      trace := [Event.checkpointSave all_tweets cursor]
      stopped := true, errored := false }
  else
    match pages with
    | [] => { tweets := all_tweets, trace := [], stopped := false, errored := true }
    | p :: rest =>
      let acc := all_tweets ++ p.tweets
      let cpEvs := periodicSaveEvents (page_count + 1) ci acc p.next_cursor
      if cursorFalsy p.next_cursor || p.tweets.length == 0 then
        { tweets := acc, trace := Event.fetchCall cursor :: cpEvs
          stopped := false, errored := false }
      else
        let res := fetch_all_likes stop rest acc p.next_cursor (page_count + 1) ci
        { tweets := res.tweets
          trace := Event.fetchCall cursor ::
            (cpEvs ++ (rateLimitEvents p.rate_limit p.now acc p.next_cursor ++
              (Event.politeSleep :: res.trace)))
          stopped := res.stopped, errored := res.errored }

/-- Concatenation of the records of a list of pages. -/
def pagesTweets (ps : List PageResponse) : List Tweet :=
  (ps.map PageResponse.tweets).flatten

/-- The cursor the loop would pass to the fetch of page `m + 1`
(0-based `m`): the start cursor for the first page, afterwards the
`next_cursor` extracted from the preceding page. -/
def cursorUsed (start : Option String) : List PageResponse → Nat → Option String
  | _, 0 => start
  | [], _ + 1 => none
  | p :: ps, m + 1 => cursorUsed p.next_cursor ps m

/-- Number of fetch requests recorded in a trace. -/
def countFetches (t : List Event) : Nat :=
  (t.filter fun e => match e with
    | Event.fetchCall _ => true
    | _ => false).length

/-- Metadata document written by `Checkpoint.save` (checkpoint.py lines
46-57); the wall-clock `timestamp` is an explicit input. -/
structure CheckpointMeta where
  user_id : String
  cursor : Option String
  total_fetched : Nat
  download_media : Bool
  timestamp : String
  version : String
deriving Repr, DecidableEq

/-- On-disk state of the checkpoint directory: the metadata artifact
(`.export_checkpoint.json`) and the record-payload artifact
(`.export_tweets.pkl`), each present or absent. -/
structure CheckpointStore where
  checkpoint_file : Option CheckpointMeta
  tweets_file : Option (List Tweet)
deriving Repr, DecidableEq

/-- What `Checkpoint.load` (checkpoint.py lines 65-92) returns when the
metadata artifact is present: the metadata fields plus the record
payload (defaulting to `[]` when the payload artifact is absent). -/
structure CheckpointData where
  user_id : String
  cursor : Option String
  total_fetched : Nat
  download_media : Bool
  timestamp : String
  version : String
  tweets : List Tweet
deriving Repr, DecidableEq

/-- `Checkpoint.save` (checkpoint.py lines 28-63): overwrites both
artifacts; the metadata carries the given fields plus version "1.0". -/
def Checkpoint.save (store : CheckpointStore) (user_id : String)
    (tweets : List Tweet) (cursor : Option String) (total_fetched : Nat)
    (download_media : Bool) (timestamp : String) : CheckpointStore :=
  let _ := store
  { checkpoint_file := some
      { user_id := user_id, cursor := cursor, total_fetched := total_fetched
        download_media := download_media, timestamp := timestamp, version := "1.0" }
    tweets_file := some tweets }

/-- `Checkpoint.load` (checkpoint.py lines 65-92): `None` when the
metadata artifact is absent, otherwise the metadata with the record
payload attached (`[]` when the payload artifact is absent). -/
def Checkpoint.load (store : CheckpointStore) : Option CheckpointData :=
  match store.checkpoint_file with
  | none => none
  | some m => some
      { user_id := m.user_id, cursor := m.cursor
        total_fetched := m.total_fetched, download_media := m.download_media
        timestamp := m.timestamp, version := m.version
        tweets := store.tweets_file.getD [] }

/-- `Checkpoint.exists` (checkpoint.py lines 94-96): both artifacts
must be present. -/
def Checkpoint.exists (store : CheckpointStore) : Bool :=
  store.checkpoint_file.isSome && store.tweets_file.isSome

/-- `Checkpoint.clear` (checkpoint.py lines 98-104): removes whichever
artifacts are present; the result is always the empty store. -/
def Checkpoint.clear (store : CheckpointStore) : CheckpointStore :=
  let _ := store
  { checkpoint_file := none, tweets_file := none }

/-- The resume check of `XLikesExporter.fetch_likes` (exporter.py lines
65-79): yields the seeded records, the start cursor, and the store
after this step (a checkpoint for a different user is cleared). -/
def resumeState (store : CheckpointStore) (enable : Bool) (user_id : String)
    (resume : Bool) : List Tweet × Option String × CheckpointStore :=
  if resume && enable && Checkpoint.exists store then
    match Checkpoint.load store with
    | some cd =>
      if cd.user_id == user_id then (cd.tweets, cd.cursor, store)
      else ([], none, Checkpoint.clear store)
    | none => ([], none, Checkpoint.clear store)
  else ([], none, store)

/-- `XLikesExporter._save_checkpoint` (exporter.py lines 120-129):
saves with `total_fetched` equal to the length of the saved list. -/
def save_checkpoint (store : CheckpointStore) (enable : Bool) (user_id : String)
    (tweets : List Tweet) (cursor : Option String) (download_media : Bool)
    (timestamp : String) : CheckpointStore :=
  if enable then
    Checkpoint.save store user_id tweets cursor tweets.length download_media timestamp
  else store

/-- Effect of one client event on the checkpoint store, through the
checkpoint callback the orchestrator passes to `fetch_all_likes`
(exporter.py lines 87-92): a `checkpointSave` of batch `b` with cursor
`c` saves `seed ++ b` (the orchestrator's `self.tweets + new_tweets_batch`). -/
def applyCheckpointEvent (enable : Bool) (user_id : String) (seed : List Tweet)
    (download_media : Bool) (timestamp : String) (store : CheckpointStore) :
    Event → CheckpointStore
  | Event.checkpointSave b c =>
      save_checkpoint store enable user_id (seed ++ b) c download_media timestamp
  | _ => store

/-- Folds the checkpoint-callback effects of a whole trace over the store. -/
def applyCheckpointEvents (enable : Bool) (user_id : String) (seed : List Tweet)
    (download_media : Bool) (timestamp : String) (store : CheckpointStore)
    (trace : List Event) : CheckpointStore :=
  trace.foldl (applyCheckpointEvent enable user_id seed download_media timestamp) store

/-- The sequence of (metadata, payload) pairs written by the
orchestrator's checkpoint callback over a client trace, when
checkpoints are enabled: for each `checkpointSave` of batch `b` with
cursor `c`, `Checkpoint.save` writes metadata for `user_id` with cursor
`c` and `total_fetched = (seed ++ b).length`, and payload `seed ++ b`
(exporter.py lines 87-92 and 120-129, checkpoint.py lines 28-63). -/
def checkpointCallbackSaves (user_id : String) (seed : List Tweet)
    (download_media : Bool) (timestamp : String) (trace : List Event) :
    List (CheckpointMeta × List Tweet) :=
  trace.filterMap fun e => match e with
    | Event.checkpointSave b c => some
        ({ user_id := user_id, cursor := c, total_fetched := (seed ++ b).length
           download_media := download_media, timestamp := timestamp
           version := "1.0" }, seed ++ b)
    | _ => none

/-- The dedup-merge of `XLikesExporter.fetch_likes` (exporter.py lines
95-101): keep the existing records, append the new records whose id is
not among the existing ids. -/
def mergeDedup (existing new_tweets : List Tweet) : List Tweet :=
  existing ++ new_tweets.filter fun t => !(existing.map Tweet.id).contains t.id

/-- Observable outcome of `XLikesExporter.fetch_likes`: the returned
record list, the final store, the seed and start cursor chosen by the
resume check, the store right after the resume check, and the client
run result. -/
structure ExportOutcome where
  tweets : List Tweet
  store : CheckpointStore
  seeded : List Tweet
  start_cursor : Option String
  resume_store : CheckpointStore
  run : FetchResult
deriving Repr, DecidableEq

/-- The stop callback handed to the client: the caller's callback when
one was supplied, otherwise never stop (`stop_callback and
stop_callback()` is falsy when `stop_callback` is `None`). -/
def stopFun : Option (Nat → Bool) → Nat → Bool
  | some f, n => f n
  | none, _ => false

/-- `XLikesExporter.fetch_likes` (exporter.py lines 44-118), media
download omitted (it does not touch the record list or the store).
`enable` is `enable_checkpoints` (whether `self.checkpoint` is set);
the stop callback is optional exactly as in the source, and the final
clear happens when checkpoints are enabled and NO stop callback was
supplied (`if self.checkpoint and not stop_callback`, line 106). -/
def fetch_likes (store : CheckpointStore) (enable : Bool) (user_id : String)
    (download_media : Bool) (stop_callback : Option (Nat → Bool))
    (resume : Bool) (pages : List PageResponse) (timestamp : String) :
    ExportOutcome :=
  let rs := resumeState store enable user_id resume
  let seed := rs.1
  let start_cursor := rs.2.1
  let store1 := rs.2.2
  let run := fetch_all_likes (stopFun stop_callback) pages [] start_cursor 0 10
  let store2 := applyCheckpointEvents enable user_id seed download_media
    timestamp store1 run.trace
  let final_tweets :=
    if resume && !seed.isEmpty then mergeDedup seed run.tweets else run.tweets
  let store3 :=
    if enable && stop_callback.isNone then Checkpoint.clear store2 else store2
  { tweets := final_tweets, store := store3, seeded := seed
    start_cursor := start_cursor, resume_store := store1, run := run }

/-- Is this event the rate-limit sleep? -/
def isRateLimitSleep : Event → Bool
  | Event.rateLimitSleep _ => true
  | _ => false

/-- Is this event a checkpoint save? -/
def isCheckpointSave : Event → Bool
  | Event.checkpointSave _ _ => true
  | _ => false

/-- A trace does not begin with a rate-limit sleep. -/
def headNotSleep : List Event → Bool
  | [] => true
  | e :: _ => !isRateLimitSleep e

/-- Every rate-limit sleep in the trace is immediately preceded by a
checkpoint save. -/
def sleepsGuarded : List Event → Bool
  | [] => true
  | [_] => true
  | e1 :: e2 :: rest =>
    (!isRateLimitSleep e2 || isCheckpointSave e1) && sleepsGuarded (e2 :: rest)

/-- A checkpoint save strictly precedes every rate-limit sleep. -/
def traceGuarded (t : List Event) : Prop :=
  headNotSleep t = true ∧ sleepsGuarded t = true

/-- Sample author used in concrete runs. -/
def sampleUser (i : String) : User :=
  { id := i, screen_name := i, name := i }

/-- Sample record with a given id, used in concrete runs. -/
def sampleTweet (i : String) : Tweet :=
  { id := i, text := "", created_at := "", user := sampleUser i }

/-- A rate-limit window far from exhaustion: no wait is triggered. -/
def calmRate : RateLimitInfo :=
  { limit := 100, remaining := 99, reset := 0 }

/-- The three-page scenario of the specification: pages of 20, 20 and 0
records, with cursors C1, C2 and absent. -/
def scenario3 : List PageResponse :=
  [ { tweets := List.replicate 20 (sampleTweet "a"), next_cursor := some "C1"
      rate_limit := calmRate, now := 0 }
  , { tweets := List.replicate 20 (sampleTweet "b"), next_cursor := some "C2"
      rate_limit := calmRate, now := 0 }
  , { tweets := [], next_cursor := none, rate_limit := calmRate, now := 0 } ]

/-- Sample checkpoint metadata for user "A". -/
def sampleMeta : CheckpointMeta :=
  { user_id := "A", cursor := some "CUR", total_fetched := 1
    download_media := true, timestamp := "t0", version := "1.0" }

lemma fetch_likes_seeded (store : CheckpointStore) (enable : Bool)
    (user_id : String) (dm : Bool) (scb : Option (Nat → Bool)) (r : Bool)
    (pages : List PageResponse) (ts : String) :
    (fetch_likes store enable user_id dm scb r pages ts).seeded =
      (resumeState store enable user_id r).1 := rfl

lemma fetch_likes_start_cursor (store : CheckpointStore) (enable : Bool)
    (user_id : String) (dm : Bool) (scb : Option (Nat → Bool)) (r : Bool)
    (pages : List PageResponse) (ts : String) :
    (fetch_likes store enable user_id dm scb r pages ts).start_cursor =
      (resumeState store enable user_id r).2.1 := rfl

lemma fetch_likes_resume_store (store : CheckpointStore) (enable : Bool)
    (user_id : String) (dm : Bool) (scb : Option (Nat → Bool)) (r : Bool)
    (pages : List PageResponse) (ts : String) :
    (fetch_likes store enable user_id dm scb r pages ts).resume_store =
      (resumeState store enable user_id r).2.2 := rfl

/-- C7: for every user id, record list, cursor and total count,
`Checkpoint.save` followed by `Checkpoint.load` reconstructs the saved
`user_id`, `cursor` and `total_fetched` exactly, and the loaded record
payload equals the record list that was saved. -/
theorem C7_checkpoint_round_trip (store : CheckpointStore) (user_id : String)
    (tweets : List Tweet) (cursor : Option String) (total_fetched : Nat)
    (download_media : Bool) (timestamp : String) :
    Checkpoint.load (Checkpoint.save store user_id tweets cursor total_fetched
        download_media timestamp) =
      some { user_id := user_id, cursor := cursor, total_fetched := total_fetched
             download_media := download_media, timestamp := timestamp
             version := "1.0", tweets := tweets } := rfl

/-- C8: `Checkpoint.exists` is true iff both the metadata artifact and
the record-payload artifact are present, and a resume request over a
partial state (exactly one artifact present) starts fresh: empty seed,
no start cursor, store untouched by the resume check. -/
theorem C8_exists_requires_both_artifacts :
    (∀ store : CheckpointStore,
      Checkpoint.exists store = true ↔
        store.checkpoint_file.isSome = true ∧ store.tweets_file.isSome = true) ∧
    ∀ (store : CheckpointStore) (user_id : String) (download_media : Bool)
      (stop_callback : Option (Nat → Bool)) (pages : List PageResponse) (ts : String),
      (store.checkpoint_file = none ∧ store.tweets_file ≠ none) ∨
        (store.checkpoint_file ≠ none ∧ store.tweets_file = none) →
      (fetch_likes store true user_id download_media stop_callback true pages ts).seeded
          = [] ∧
      (fetch_likes store true user_id download_media stop_callback true pages ts).start_cursor
          = none ∧
      (fetch_likes store true user_id download_media stop_callback true pages ts).resume_store
          = store := by
  constructor
  · intro store
    simp [Checkpoint.exists]
  · intro store user_id dm scb pages ts h
    have hex : Checkpoint.exists store = false := by
      rcases h with ⟨h1, _⟩ | ⟨_, h2⟩
      · simp [Checkpoint.exists, h1]
      · simp [Checkpoint.exists, h2]
    have hrs : resumeState store true user_id true = ([], none, store) := by
      simp [resumeState, hex]
    exact ⟨by rw [fetch_likes_seeded, hrs], by rw [fetch_likes_start_cursor, hrs],
      by rw [fetch_likes_resume_store, hrs]⟩

/-- Witness for C8: a store with metadata only is treated as no
checkpoint and a resume over it starts fresh. -/
theorem C8_witness :
    (fetch_likes ⟨some sampleMeta, none⟩ true "A" true none true [] "ts").seeded = [] ∧
    (fetch_likes ⟨some sampleMeta, none⟩ true "A" true none true [] "ts").start_cursor = none ∧
    (fetch_likes ⟨some sampleMeta, none⟩ true "A" true none true [] "ts").resume_store
      = ⟨some sampleMeta, none⟩ :=
  C8_exists_requires_both_artifacts.2 ⟨some sampleMeta, none⟩ "A" true none [] "ts"
    (Or.inr ⟨by simp, rfl⟩)

/-- C10: absent `x-rate-limit` headers parse to the all-zero window;
`should_wait()` is then true, but for any current time at least 5
seconds past the epoch the computed wait is 0 and the loop performs
neither a rate-limit checkpoint save nor a rate-limit sleep for that
page. -/
theorem C10_missing_headers_no_wait :
    parseRateLimitHeaders none none none = { limit := 0, remaining := 0, reset := 0 } ∧
    RateLimitInfo.should_wait { limit := 0, remaining := 0, reset := 0 } = true ∧
    ∀ now : Int, 5 ≤ now →
      RateLimitInfo.get_wait_time { limit := 0, remaining := 0, reset := 0 } now = 0 ∧
      ∀ (acc : List Tweet) (cur : Option String),
        rateLimitEvents { limit := 0, remaining := 0, reset := 0 } now acc cur = [] := by
  refine ⟨rfl, rfl, ?_⟩
  intro now hnow
  have hw : RateLimitInfo.get_wait_time { limit := 0, remaining := 0, reset := 0 } now = 0 := by
    simp only [RateLimitInfo.get_wait_time]
    omega
  refine ⟨hw, ?_⟩
  intro acc cur
  simp [rateLimitEvents, hw]

/-- Witness for C10 at current time 7. -/
theorem C10_witness :
    RateLimitInfo.get_wait_time { limit := 0, remaining := 0, reset := 0 } 7 = 0 ∧
    rateLimitEvents { limit := 0, remaining := 0, reset := 0 } 7 [] none = [] := by
  have h := C10_missing_headers_no_wait.2.2 7 (by decide)
  exact ⟨h.1, h.2 [] none⟩

/-- C6: a resume request by a user different from the checkpoint's
stored user does not fail: the checkpoint is discarded and the fetch
starts fresh with an empty seed and no start cursor. -/
theorem C6_cross_user_starts_fresh (m : CheckpointMeta) (tw : List Tweet)
    (user_id : String) (download_media : Bool) (stop_callback : Option (Nat → Bool))
    (pages : List PageResponse) (ts : String) (h : m.user_id ≠ user_id) :
    (fetch_likes ⟨some m, some tw⟩ true user_id download_media stop_callback true pages ts).seeded
        = [] ∧
    (fetch_likes ⟨some m, some tw⟩ true user_id download_media stop_callback true pages ts).start_cursor
        = none ∧
    (fetch_likes ⟨some m, some tw⟩ true user_id download_media stop_callback true pages ts).resume_store
        = { checkpoint_file := none, tweets_file := none } := by
  have hb : (m.user_id == user_id) = false := by
    simpa using h
  have hrs : resumeState ⟨some m, some tw⟩ true user_id true =
      ([], none, { checkpoint_file := none, tweets_file := none }) := by
    simp [resumeState, Checkpoint.exists, Checkpoint.load, Checkpoint.clear, hb]
  exact ⟨by rw [fetch_likes_seeded, hrs], by rw [fetch_likes_start_cursor, hrs],
    by rw [fetch_likes_resume_store, hrs]⟩

/-- Witness for C6: checkpoint of user "A", resume requested for "B". -/
theorem C6_witness :
    (fetch_likes ⟨some sampleMeta, some [sampleTweet "old"]⟩ true "B" true none true [] "ts").seeded
        = [] ∧
    (fetch_likes ⟨some sampleMeta, some [sampleTweet "old"]⟩ true "B" true none true [] "ts").start_cursor
        = none ∧
    (fetch_likes ⟨some sampleMeta, some [sampleTweet "old"]⟩ true "B" true none true [] "ts").resume_store
        = { checkpoint_file := none, tweets_file := none } :=
  C6_cross_user_starts_fresh sampleMeta [sampleTweet "old"] "B" true none [] "ts"
    (by decide)

/-- C2, evaluated at the failing input: a run that completes fully
(no stop ever requested, no error) while a stop callback was supplied
leaves the pre-existing checkpoint in place, because exporter.py line
106 clears only when `stop_callback` is `None`; and a run halted by the
stop signal leaves a checkpoint in place (here the one saved at the
stop boundary). -/
theorem C2_completed_run_keeps_checkpoint :
    (let store0 : CheckpointStore := ⟨some sampleMeta, some [sampleTweet "old"]⟩
     let pages : List PageResponse :=
       [{ tweets := [sampleTweet "1"], next_cursor := none
          rate_limit := calmRate, now := 0 }]
     let out := fetch_likes store0 true "A" true (some fun _ => false) false pages "t1"
     out.run.stopped = false ∧ out.run.errored = false ∧
       out.store = store0 ∧ Checkpoint.exists out.store = true) ∧
    (let store0 : CheckpointStore := ⟨some sampleMeta, some [sampleTweet "old"]⟩
     let out2 := fetch_likes store0 true "A" true (some fun _ => true) false [] "t1"
     out2.run.stopped = true ∧ Checkpoint.exists out2.store = true) := by
  exact ⟨⟨rfl, rfl, rfl, rfl⟩, ⟨rfl, rfl⟩⟩

lemma traceGuarded_nil : traceGuarded [] := ⟨rfl, rfl⟩

lemma traceGuarded_cons {t : List Event} (e : Event)
    (he : isRateLimitSleep e = false) (h : traceGuarded t) :
    traceGuarded (e :: t) := by
  obtain ⟨h1, h2⟩ := h
  refine ⟨by simp [headNotSleep, he], ?_⟩
  cases t with
  | nil => rfl
  | cons e2 r =>
    have h3 : (!isRateLimitSleep e2) = true := by simpa [headNotSleep] using h1
    simp [sleepsGuarded, h3, h2]

lemma traceGuarded_ckpt_sleep {t : List Event} (b : List Tweet)
    (c : Option String) (w : Int) (h : traceGuarded t) :
    traceGuarded (Event.checkpointSave b c :: Event.rateLimitSleep w :: t) := by
  obtain ⟨h1, h2⟩ := h
  refine ⟨rfl, ?_⟩
  cases t with
  | nil => rfl
  | cons e2 r =>
    have h4 : isRateLimitSleep e2 = false := by
      have h3 : (!isRateLimitSleep e2) = true := by simpa [headNotSleep] using h1
      simpa using h3
    have ha : isRateLimitSleep (Event.rateLimitSleep w) = true := rfl
    have hb : isCheckpointSave (Event.checkpointSave b c) = true := rfl
    have hc : isCheckpointSave (Event.rateLimitSleep w) = false := rfl
    simp [sleepsGuarded, ha, hb, hc, h4, h2]

lemma traceGuarded_periodic (pc ci : Nat) (acc : List Tweet)
    (nc : Option String) {t : List Event} (h : traceGuarded t) :
    traceGuarded (periodicSaveEvents pc ci acc nc ++ t) := by
  unfold periodicSaveEvents
  split
  · exact traceGuarded_cons (Event.checkpointSave acc nc) rfl h
  · simpa using h

lemma traceGuarded_rateLimit (rl : RateLimitInfo) (now : Int)
    (acc : List Tweet) (cur : Option String) {t : List Event}
    (h : traceGuarded t) :
    traceGuarded (rateLimitEvents rl now acc cur ++ t) := by
  unfold rateLimitEvents
  split
  · split
    · exact traceGuarded_ckpt_sleep acc cur _ h
    · simpa using h
  · simpa using h

lemma fetch_all_likes_traceGuarded :
    ∀ (pages : List PageResponse) (stop : Nat → Bool) (acc : List Tweet)
      (cur : Option String) (pc ci : Nat),
    traceGuarded (fetch_all_likes stop pages acc cur pc ci).trace := by
  intro pages
  induction pages with
  | nil =>
    intro stop acc cur pc ci
    unfold fetch_all_likes
    split
    · exact ⟨rfl, rfl⟩
    · exact ⟨rfl, rfl⟩
  | cons p rest ih =>
    intro stop acc cur pc ci
    unfold fetch_all_likes
    split
    · exact ⟨rfl, rfl⟩
    · dsimp only
      split
      · refine traceGuarded_cons (Event.fetchCall cur) rfl ?_
        simpa using traceGuarded_periodic (pc + 1) ci (acc ++ p.tweets)
          p.next_cursor traceGuarded_nil
      · refine traceGuarded_cons (Event.fetchCall cur) rfl ?_
        refine traceGuarded_periodic _ _ _ _ ?_
        refine traceGuarded_rateLimit _ _ _ _ ?_
        exact traceGuarded_cons Event.politeSleep rfl
          (ih stop (acc ++ p.tweets) p.next_cursor (pc + 1) ci)

/-- C4: with `remaining = 1` and `reset = now + 30` the limiter says
wait and the computed wait is exactly 35 seconds; the rate-limit
handling then emits exactly a checkpoint save of the accumulated
records with the current cursor followed by the 35-second sleep; and in
every `fetch_all_likes` trace a checkpoint save immediately precedes
every rate-limit sleep. -/
theorem C4_checkpoint_saved_before_rate_limit_sleep :
    (∀ (rl : RateLimitInfo) (now : Int), rl.remaining = 1 → rl.reset = now + 30 →
      rl.should_wait = true ∧ rl.get_wait_time now = 35) ∧
    (∀ (lim now : Int) (acc : List Tweet) (cur : Option String),
      rateLimitEvents { limit := lim, remaining := 1, reset := now + 30 } now acc cur =
        [Event.checkpointSave acc cur, Event.rateLimitSleep 35]) ∧
    ∀ (stop : Nat → Bool) (pages : List PageResponse) (acc : List Tweet)
      (cur : Option String) (pc ci : Nat),
      traceGuarded (fetch_all_likes stop pages acc cur pc ci).trace := by
  refine ⟨?_, ?_, fun stop pages acc cur pc ci =>
    fetch_all_likes_traceGuarded pages stop acc cur pc ci⟩
  · intro rl now h1 h2
    constructor
    · simp [RateLimitInfo.should_wait, h1]
    · simp only [RateLimitInfo.get_wait_time, h2]
      omega
  · intro lim now acc cur
    have hw : RateLimitInfo.get_wait_time
        { limit := lim, remaining := 1, reset := now + 30 } now = 35 := by
      simp only [RateLimitInfo.get_wait_time]
      omega
    simp [rateLimitEvents, RateLimitInfo.should_wait, hw]

/-- Witness for C4 at `now = 5`, `reset = 35`. -/
theorem C4_witness :
    RateLimitInfo.should_wait { limit := 15, remaining := 1, reset := 35 } = true ∧
    RateLimitInfo.get_wait_time { limit := 15, remaining := 1, reset := 35 } 5 = 35 :=
  C4_checkpoint_saved_before_rate_limit_sleep.1
    { limit := 15, remaining := 1, reset := 35 } 5 (by decide) (by decide)

lemma fetch_all_likes_stop (stop : Nat → Bool) (pages : List PageResponse)
    (acc : List Tweet) (cur : Option String) (pc ci : Nat)
    (h : stop pc = true) :
    fetch_all_likes stop pages acc cur pc ci =
      { tweets := acc, trace := [Event.checkpointSave acc cur]
        stopped := true, errored := false } := by
  unfold fetch_all_likes
  rw [if_pos h]

lemma fetch_all_likes_out_of_pages (stop : Nat → Bool) (acc : List Tweet)
    (cur : Option String) (pc ci : Nat) (h : stop pc = false) :
    fetch_all_likes stop [] acc cur pc ci =
      { tweets := acc, trace := [], stopped := false, errored := true } := by
  unfold fetch_all_likes
  rw [if_neg (by simp [h])]

lemma fetch_all_likes_last_page (stop : Nat → Bool) (p : PageResponse)
    (rest : List PageResponse) (acc : List Tweet) (cur : Option String)
    (pc ci : Nat) (h0 : stop pc = false)
    (hc : (cursorFalsy p.next_cursor || p.tweets.length == 0) = true) :
    fetch_all_likes stop (p :: rest) acc cur pc ci =
      { tweets := acc ++ p.tweets
        trace := Event.fetchCall cur ::
          periodicSaveEvents (pc + 1) ci (acc ++ p.tweets) p.next_cursor
        stopped := false, errored := false } := by
  unfold fetch_all_likes
  rw [if_neg (by simp [h0])]
  dsimp only
  rw [if_pos hc]

lemma fetch_all_likes_cont (stop : Nat → Bool) (p : PageResponse)
    (rest : List PageResponse) (acc : List Tweet) (cur : Option String)
    (pc ci : Nat) (h0 : stop pc = false)
    (hc : (cursorFalsy p.next_cursor || p.tweets.length == 0) = false) :
    fetch_all_likes stop (p :: rest) acc cur pc ci =
      { tweets := (fetch_all_likes stop rest (acc ++ p.tweets) p.next_cursor (pc + 1) ci).tweets
        trace := Event.fetchCall cur ::
          (periodicSaveEvents (pc + 1) ci (acc ++ p.tweets) p.next_cursor ++
            (rateLimitEvents p.rate_limit p.now (acc ++ p.tweets) p.next_cursor ++
              (Event.politeSleep ::
                (fetch_all_likes stop rest (acc ++ p.tweets) p.next_cursor (pc + 1) ci).trace)))
        stopped := (fetch_all_likes stop rest (acc ++ p.tweets) p.next_cursor (pc + 1) ci).stopped
        errored := (fetch_all_likes stop rest (acc ++ p.tweets) p.next_cursor (pc + 1) ci).errored } := by
  conv_lhs => rw [fetch_all_likes]
  rw [if_neg (by simp [h0])]
  dsimp only
  rw [if_neg (by simp [hc])]

lemma mem_periodicSaveEvents {e : Event} {pc ci : Nat} {acc : List Tweet}
    {nc : Option String} (h : e ∈ periodicSaveEvents pc ci acc nc) :
    e = Event.checkpointSave acc nc := by
  unfold periodicSaveEvents at h
  split at h
  · simpa using h
  · simp at h

lemma mem_rateLimitEvents {e : Event} {rl : RateLimitInfo} {now : Int}
    {acc : List Tweet} {cur : Option String}
    (h : e ∈ rateLimitEvents rl now acc cur) :
    e = Event.checkpointSave acc cur ∨
      e = Event.rateLimitSleep (rl.get_wait_time now) := by
  unfold rateLimitEvents at h
  split at h
  · split at h
    · simpa using h
    · simp at h
  · simp at h

/-- C5: a page whose next cursor is absent (or empty) or whose parsed
record list is empty ends the loop with that single fetch, independent
of any further pages the API could serve; and the concrete 20/20/0
scenario with cursors C1, C2, absent makes exactly 3 fetch calls and
returns 40 records. -/
theorem C5_end_of_stream_terminates :
    (∀ (stop : Nat → Bool) (p : PageResponse) (rest : List PageResponse)
       (acc : List Tweet) (cur : Option String) (pc ci : Nat),
      stop pc = false →
      (cursorFalsy p.next_cursor || p.tweets.length == 0) = true →
      fetch_all_likes stop (p :: rest) acc cur pc ci =
        { tweets := acc ++ p.tweets
          trace := Event.fetchCall cur ::
            periodicSaveEvents (pc + 1) ci (acc ++ p.tweets) p.next_cursor
          stopped := false, errored := false } ∧
      countFetches (fetch_all_likes stop (p :: rest) acc cur pc ci).trace = 1) ∧
    (fetch_all_likes (fun _ => false) scenario3 [] none 0 10).tweets.length = 40 ∧
    countFetches (fetch_all_likes (fun _ => false) scenario3 [] none 0 10).trace = 3 ∧
    (fetch_all_likes (fun _ => false) scenario3 [] none 0 10).errored = false := by
  refine ⟨?_, rfl, rfl, rfl⟩
  intro stop p rest acc cur pc ci h0 hc
  have he := fetch_all_likes_last_page stop p rest acc cur pc ci h0 hc
  refine ⟨he, ?_⟩
  rw [he]
  unfold countFetches periodicSaveEvents
  split
  · rfl
  · rfl

/-- Witness for C5: an empty page with absent cursor stops the loop even
though another page is available. -/
theorem C5_witness :
    fetch_all_likes (fun _ => false)
        [ { tweets := [], next_cursor := none, rate_limit := calmRate, now := 0 }
        , { tweets := [sampleTweet "z"], next_cursor := some "Z"
            rate_limit := calmRate, now := 0 } ] [] none 0 10 =
      { tweets := [], trace := [Event.fetchCall none]
        stopped := false, errored := false } ∧
    countFetches (fetch_all_likes (fun _ => false)
        [ { tweets := [], next_cursor := none, rate_limit := calmRate, now := 0 }
        , { tweets := [sampleTweet "z"], next_cursor := some "Z"
            rate_limit := calmRate, now := 0 } ] [] none 0 10).trace = 1 :=
  C5_end_of_stream_terminates.1 (fun _ => false)
    { tweets := [], next_cursor := none, rate_limit := calmRate, now := 0 }
    [ { tweets := [sampleTweet "z"], next_cursor := some "Z"
        rate_limit := calmRate, now := 0 } ] [] none 0 10 rfl rfl

lemma trace_ne_nil_of_getLast?_eq_some {t : List Event} {e : Event}
    (h : t.getLast? = some e) : t ≠ [] := by
  intro hnil
  rw [hnil] at h
  simp at h

lemma fetch_stop_boundary :
    ∀ (n : Nat) (pages : List PageResponse) (stop : Nat → Bool)
      (acc : List Tweet) (cur : Option String) (pc ci : Nat),
    (∀ j, j < n → stop (pc + j) = false) → stop (pc + n) = true →
    n ≤ pages.length →
    (∀ p ∈ pages.take n, cursorFalsy p.next_cursor = false ∧ p.tweets.length ≠ 0) →
    (fetch_all_likes stop pages acc cur pc ci).stopped = true ∧
    (fetch_all_likes stop pages acc cur pc ci).errored = false ∧
    (fetch_all_likes stop pages acc cur pc ci).trace.getLast? =
      some (Event.checkpointSave (acc ++ pagesTweets (pages.take n))
        (cursorUsed cur pages n)) := by
  intro n
  induction n with
  | zero =>
    intro pages stop acc cur pc ci hlt hstop hlen htake
    have h0 : stop pc = true := by simpa using hstop
    rw [fetch_all_likes_stop stop pages acc cur pc ci h0]
    refine ⟨rfl, rfl, ?_⟩
    simp [pagesTweets, cursorUsed]
  | succ n ih =>
    intro pages stop acc cur pc ci hlt hstop hlen htake
    have h0 : stop pc = false := by simpa using hlt 0 (Nat.succ_pos n)
    cases pages with
    | nil => simp at hlen
    | cons p rest =>
      obtain ⟨hpc, hpt⟩ := htake p (by simp)
      have hcond : (cursorFalsy p.next_cursor || p.tweets.length == 0) = false := by
        simp [hpc, hpt]
      have hlt' : ∀ j, j < n → stop (pc + 1 + j) = false := by
        intro j hj
        have h := hlt (j + 1) (by omega)
        have harith : pc + (j + 1) = pc + 1 + j := by omega
        rwa [harith] at h
      have hstop' : stop (pc + 1 + n) = true := by
        have harith : pc + 1 + n = pc + (n + 1) := by omega
        rwa [harith]
      have hlen' : n ≤ rest.length := by
        simp at hlen
        omega
      have htake' : ∀ q ∈ rest.take n,
          cursorFalsy q.next_cursor = false ∧ q.tweets.length ≠ 0 := by
        intro q hq
        exact htake q (by simp [hq])
      obtain ⟨ihs, ihe, ihl⟩ :=
        ih rest stop (acc ++ p.tweets) p.next_cursor (pc + 1) ci hlt' hstop' hlen' htake'
      rw [fetch_all_likes_cont stop p rest acc cur pc ci h0 hcond]
      refine ⟨ihs, ihe, ?_⟩
      have hne := trace_ne_nil_of_getLast?_eq_some ihl
      have hrw : Event.fetchCall cur ::
          (periodicSaveEvents (pc + 1) ci (acc ++ p.tweets) p.next_cursor ++
            (rateLimitEvents p.rate_limit p.now (acc ++ p.tweets) p.next_cursor ++
              (Event.politeSleep ::
                (fetch_all_likes stop rest (acc ++ p.tweets) p.next_cursor (pc + 1) ci).trace))) =
          (Event.fetchCall cur ::
            (periodicSaveEvents (pc + 1) ci (acc ++ p.tweets) p.next_cursor ++
              (rateLimitEvents p.rate_limit p.now (acc ++ p.tweets) p.next_cursor ++
                [Event.politeSleep]))) ++
            (fetch_all_likes stop rest (acc ++ p.tweets) p.next_cursor (pc + 1) ci).trace := by
        simp
      rw [hrw, List.getLast?_append_of_ne_nil _ hne, ihl]
      have htw : pagesTweets ((p :: rest).take (n + 1)) =
          p.tweets ++ pagesTweets (rest.take n) := by
        simp [pagesTweets]
      rw [htw, List.append_assoc]
      rfl

/-- C1: when the stop predicate first becomes true at the iteration
boundary before fetching page `k` (and the first `k - 1` pages all
continue the pagination), the loop terminates via the stop signal
without error and the last checkpoint saved holds exactly the
concatenation of pages `1..k-1` and the cursor that would have been
used to fetch page `k`. -/
theorem C1_stop_signal_safety (k : Nat) (pages : List PageResponse)
    (stop : Nat → Bool) (start : Option String) (ci : Nat)
    (hk : 1 ≤ k)
    (hlt : ∀ j, j < k - 1 → stop j = false) (hstop : stop (k - 1) = true)
    (hlen : k - 1 ≤ pages.length)
    (htake : ∀ p ∈ pages.take (k - 1),
      cursorFalsy p.next_cursor = false ∧ p.tweets.length ≠ 0) :
    (fetch_all_likes stop pages [] start 0 ci).stopped = true ∧
    (fetch_all_likes stop pages [] start 0 ci).errored = false ∧
    (fetch_all_likes stop pages [] start 0 ci).trace.getLast? =
      some (Event.checkpointSave (pagesTweets (pages.take (k - 1)))
        (cursorUsed start pages (k - 1))) := by
  have h := fetch_stop_boundary (k - 1) pages stop [] start 0 ci
    (by simpa using hlt) (by simpa using hstop) hlen htake
  simpa using h

/-- Witness for C1 with `k = 2`: stop fires at the boundary before page
2; the final checkpoint holds page 1 and page 1's next cursor. -/
theorem C1_witness :
    (fetch_all_likes (fun n => n == 1)
        [{ tweets := [sampleTweet "1"], next_cursor := some "C1"
           rate_limit := calmRate, now := 0 }] [] none 0 10).stopped = true ∧
    (fetch_all_likes (fun n => n == 1)
        [{ tweets := [sampleTweet "1"], next_cursor := some "C1"
           rate_limit := calmRate, now := 0 }] [] none 0 10).errored = false ∧
    (fetch_all_likes (fun n => n == 1)
        [{ tweets := [sampleTweet "1"], next_cursor := some "C1"
           rate_limit := calmRate, now := 0 }] [] none 0 10).trace.getLast? =
      some (Event.checkpointSave
        (pagesTweets ([{ tweets := [sampleTweet "1"], next_cursor := some "C1"
                         rate_limit := calmRate, now := 0 }].take (2 - 1)))
        (cursorUsed none
          [{ tweets := [sampleTweet "1"], next_cursor := some "C1"
             rate_limit := calmRate, now := 0 }] (2 - 1))) :=
  C1_stop_signal_safety 2
    [{ tweets := [sampleTweet "1"], next_cursor := some "C1"
       rate_limit := calmRate, now := 0 }]
    (fun n => n == 1) none 10 (by decide) (by decide) (by decide) (by decide)
    (by decide)

lemma checkpointSave_batch_is_prefix :
    ∀ (pages : List PageResponse) (stop : Nat → Bool) (acc : List Tweet)
      (cur : Option String) (pc ci : Nat) (b : List Tweet) (c : Option String),
    Event.checkpointSave b c ∈ (fetch_all_likes stop pages acc cur pc ci).trace →
    ∃ m, m ≤ pages.length ∧ b = acc ++ pagesTweets (pages.take m) := by
  intro pages
  induction pages with
  | nil =>
    intro stop acc cur pc ci b c hmem
    by_cases h0 : stop pc = true
    · rw [fetch_all_likes_stop stop [] acc cur pc ci h0] at hmem
      simp at hmem
      exact ⟨0, by simp, by simp [pagesTweets, hmem.1]⟩
    · have h0' : stop pc = false := by simpa using h0
      rw [fetch_all_likes_out_of_pages stop acc cur pc ci h0'] at hmem
      simp at hmem
  | cons p rest ih =>
    intro stop acc cur pc ci b c hmem
    by_cases h0 : stop pc = true
    · rw [fetch_all_likes_stop stop (p :: rest) acc cur pc ci h0] at hmem
      simp at hmem
      exact ⟨0, by simp, by simp [pagesTweets, hmem.1]⟩
    · have h0' : stop pc = false := by simpa using h0
      by_cases hc : (cursorFalsy p.next_cursor || p.tweets.length == 0) = true
      · rw [fetch_all_likes_last_page stop p rest acc cur pc ci h0' hc] at hmem
        simp only [List.mem_cons] at hmem
        rcases hmem with hmem | hmem
        · simp at hmem
        · have := mem_periodicSaveEvents hmem
          have hb : b = acc ++ p.tweets := by
            injection this
          exact ⟨1, by simp, by simpa [pagesTweets] using hb⟩
      · have hc' : (cursorFalsy p.next_cursor || p.tweets.length == 0) = false := by
          simpa using hc
        rw [fetch_all_likes_cont stop p rest acc cur pc ci h0' hc'] at hmem
        simp only [List.mem_cons, List.mem_append] at hmem
        rcases hmem with hmem | hmem | hmem | hmem | hmem
        · simp at hmem
        · have := mem_periodicSaveEvents hmem
          have hb : b = acc ++ p.tweets := by
            injection this
          exact ⟨1, by simp, by simpa [pagesTweets] using hb⟩
        · rcases mem_rateLimitEvents hmem with h | h
          · have hb : b = acc ++ p.tweets := by
              injection h
            exact ⟨1, by simp, by simpa [pagesTweets] using hb⟩
          · simp at h
        · simp at hmem
        · obtain ⟨m, hm, hb⟩ := ih stop (acc ++ p.tweets) p.next_cursor (pc + 1) ci b c hmem
          refine ⟨m + 1, by simpa using Nat.succ_le_succ hm, ?_⟩
          rw [hb]
          simp [pagesTweets]

/-- C9: during a (possibly resumed) run, every pair written by the
orchestrator's checkpoint callback consists of the seeded records
concatenated, without any deduplication, with the records fetched so
far in the current run (a prefix of the pages), and its metadata's
`total_fetched` equals the length of that concatenation. -/
theorem C9_resumed_checkpoint_contents (stop : Nat → Bool)
    (pages : List PageResponse) (cur : Option String) (ci : Nat)
    (user_id : String) (seed : List Tweet) (download_media : Bool) (ts : String)
    (pr : CheckpointMeta × List Tweet)
    (hmem : pr ∈ checkpointCallbackSaves user_id seed download_media ts
      (fetch_all_likes stop pages [] cur 0 ci).trace) :
    ∃ m, m ≤ pages.length ∧
      pr.2 = seed ++ pagesTweets (pages.take m) ∧
      pr.1.total_fetched = pr.2.length ∧
      pr.1.user_id = user_id := by
  unfold checkpointCallbackSaves at hmem
  rw [List.mem_filterMap] at hmem
  obtain ⟨e, he, hsome⟩ := hmem
  cases e with
  | fetchCall c => simp at hsome
  | rateLimitSleep w => simp at hsome
  | politeSleep => simp at hsome
  | checkpointSave b c =>
    simp only [Option.some.injEq] at hsome
    obtain ⟨m, hm, hb⟩ := checkpointSave_batch_is_prefix pages stop [] cur 0 ci b c he
    refine ⟨m, hm, ?_, ?_, ?_⟩
    · rw [← hsome]
      simpa using hb
    · rw [← hsome]
    · rw [← hsome]

/-- Witness for C9: the checkpoint written at a stop boundary after one
page stores the seed concatenated with page 1. -/
theorem C9_witness :
    ∃ m, m ≤ ([{ tweets := [sampleTweet "1"], next_cursor := some "C1"
                 rate_limit := calmRate, now := 0 }] : List PageResponse).length ∧
      ((({ user_id := "A", cursor := some "C1", total_fetched := 2
           download_media := true, timestamp := "ts", version := "1.0" } : CheckpointMeta),
        [sampleTweet "seed", sampleTweet "1"]) : CheckpointMeta × List Tweet).2 =
        [sampleTweet "seed"] ++ pagesTweets
          (([{ tweets := [sampleTweet "1"], next_cursor := some "C1"
               rate_limit := calmRate, now := 0 }] : List PageResponse).take m) ∧
      (({ user_id := "A", cursor := some "C1", total_fetched := 2
          download_media := true, timestamp := "ts", version := "1.0" } : CheckpointMeta),
        [sampleTweet "seed", sampleTweet "1"]).1.total_fetched =
        (({ user_id := "A", cursor := some "C1", total_fetched := 2
            download_media := true, timestamp := "ts", version := "1.0" } : CheckpointMeta),
          [sampleTweet "seed", sampleTweet "1"]).2.length ∧
      (({ user_id := "A", cursor := some "C1", total_fetched := 2
          download_media := true, timestamp := "ts", version := "1.0" } : CheckpointMeta),
        [sampleTweet "seed", sampleTweet "1"]).1.user_id = "A" :=
  C9_resumed_checkpoint_contents (fun n => n == 1)
    [{ tweets := [sampleTweet "1"], next_cursor := some "C1"
       rate_limit := calmRate, now := 0 }] none 10 "A" [sampleTweet "seed"]
    true "ts" _ (by decide)

lemma mergeDedup_filter_pred (existing : List Tweet) (t : Tweet) :
    (!(existing.map Tweet.id).contains t.id) = true ↔
      t.id ∉ existing.map Tweet.id := by
  simp [List.contains]

lemma mergeDedup_take (existing new_tweets : List Tweet) :
    (mergeDedup existing new_tweets).take existing.length = existing := by
  unfold mergeDedup
  exact List.take_left _ _

lemma mergeDedup_drop_mem (existing new_tweets : List Tweet) :
    ∀ t ∈ (mergeDedup existing new_tweets).drop existing.length,
      t ∈ new_tweets ∧ t.id ∉ existing.map Tweet.id := by
  unfold mergeDedup
  rw [List.drop_left]
  intro t ht
  obtain ⟨htnew, hpred⟩ := List.mem_filter.1 ht
  exact ⟨htnew, (mergeDedup_filter_pred existing t).1 hpred⟩

lemma mergeDedup_nodup (existing new_tweets : List Tweet)
    (h1 : (existing.map Tweet.id).Nodup) (h2 : (new_tweets.map Tweet.id).Nodup) :
    ((mergeDedup existing new_tweets).map Tweet.id).Nodup := by
  unfold mergeDedup
  rw [List.map_append, List.nodup_append]
  refine ⟨h1, ?_, ?_⟩
  · exact List.Nodup.sublist ((List.filter_sublist new_tweets).map Tweet.id) h2
  · intro i hi hif
    obtain ⟨t, ht, hid⟩ := List.mem_map.1 hif
    obtain ⟨htnew, hpred⟩ := List.mem_filter.1 ht
    exact (mergeDedup_filter_pred existing t).1 hpred (hid ▸ hi)

lemma mergeDedup_mem_id (existing new_tweets : List Tweet) (i : String) :
    i ∈ (mergeDedup existing new_tweets).map Tweet.id ↔
      i ∈ (existing ++ new_tweets).map Tweet.id := by
  unfold mergeDedup
  rw [List.map_append, List.mem_append, List.map_append, List.mem_append]
  constructor
  · rintro (h | h)
    · exact Or.inl h
    · obtain ⟨t, ht, hid⟩ := List.mem_map.1 h
      exact Or.inr (List.mem_map.2 ⟨t, (List.mem_filter.1 ht).1, hid⟩)
  · rintro (h | h)
    · exact Or.inl h
    · by_cases hmem : i ∈ existing.map Tweet.id
      · exact Or.inl hmem
      · obtain ⟨t, ht, hid⟩ := List.mem_map.1 h
        refine Or.inr (List.mem_map.2 ⟨t, List.mem_filter.2 ⟨ht, ?_⟩, hid⟩)
        rw [mergeDedup_filter_pred, hid]
        exact hmem

lemma pagesTweets_take_drop (pages : List PageResponse) (j : Nat) :
    pagesTweets (pages.take j) ++ pagesTweets (pages.drop j) = pagesTweets pages := by
  unfold pagesTweets
  rw [← List.flatten_append, ← List.map_append, List.take_append_drop]

/-- Counterexample to C3 as stated: when the newly fetched list itself
repeats an id, the merge keeps both copies, so the result has duplicate
ids. -/
theorem C3_counterexample :
    ¬ (((mergeDedup [sampleTweet "a"] [sampleTweet "b", sampleTweet "b"]).map
        Tweet.id).Nodup) := by
  decide

/-- C3 amended: the merge keeps existing records in their positions and
appends exactly the new records whose ids are not already present; the
id set of the merge equals the id set of the plain concatenation — so
an interrupted-then-resumed run over the same page responses has the
same id set as the uninterrupted run; and the merge has no duplicate
ids provided the seeded list and the newly fetched list each have none
internally. -/
theorem C3_resume_merge_dedup :
    (∀ existing new_tweets : List Tweet,
      (mergeDedup existing new_tweets).take existing.length = existing ∧
      (∀ t ∈ (mergeDedup existing new_tweets).drop existing.length,
        t ∈ new_tweets ∧ t.id ∉ existing.map Tweet.id) ∧
      ((existing.map Tweet.id).Nodup → (new_tweets.map Tweet.id).Nodup →
        ((mergeDedup existing new_tweets).map Tweet.id).Nodup) ∧
      (∀ i : String, i ∈ (mergeDedup existing new_tweets).map Tweet.id ↔
        i ∈ (existing ++ new_tweets).map Tweet.id)) ∧
    ∀ (pages : List PageResponse) (j : Nat) (i : String),
      i ∈ (mergeDedup (pagesTweets (pages.take j))
            (pagesTweets (pages.drop j))).map Tweet.id ↔
        i ∈ (pagesTweets pages).map Tweet.id := by
  constructor
  · intro existing new_tweets
    exact ⟨mergeDedup_take existing new_tweets,
      mergeDedup_drop_mem existing new_tweets,
      mergeDedup_nodup existing new_tweets,
      mergeDedup_mem_id existing new_tweets⟩
  · intro pages j i
    rw [mergeDedup_mem_id, pagesTweets_take_drop]

/-- Witness for C3 amended: with internally duplicate-free inputs the
merged ids are duplicate-free. -/
theorem C3_witness :
    ((mergeDedup [sampleTweet "a"] [sampleTweet "b"]).map Tweet.id).Nodup :=
  ((C3_resume_merge_dedup.1 [sampleTweet "a"] [sampleTweet "b"]).2.2.1)
    (by decide) (by decide)
